import Mathlib

/-!
# FreeBSD/mips native register transfer (gdb/mips-fbsd-nat.c)

A shallow embedding of `getregs_supplies`, `mips_fbsd_fetch_inferior_registers`
and `mips_fbsd_store_inferior_registers`.

The functions talk to three external collaborators that are not part of the
file: the kernel (`ptrace`), the architecture descriptor (`gdbarch_*`) and the
tdep adapters (`mips_fbsd_supply_*`, `mips_fbsd_collect_*`).  They are taken as
parameters (`Env`).  The effects of a call are made explicit: a call maps a
`State` (traced process, register cache, log of the external calls made so far)
to a result (`Except GdbError Unit`, the error being what `perror_with_name`
throws) and the state it leaves behind.  The state is returned on the error
path too, because an exception does not undo what was already done.
-/

namespace MipsFbsdNat

/-! ## Architecture descriptor -/

/-- The part of `struct gdbarch` read by this file: the register numbers
returned by `gdbarch_pc_regnum` and `gdbarch_fp0_regnum` (both C `int`). -/
structure Gdbarch where
  pc_regnum : Int
  fp0_regnum : Int
  deriving DecidableEq, Repr

/-- Accessor `gdbarch_pc_regnum (gdbarch)`. -/
def gdbarch_pc_regnum (gdbarch : Gdbarch) : Int := gdbarch.pc_regnum

/-- Accessor `gdbarch_fp0_regnum (gdbarch)`. -/
def gdbarch_fp0_regnum (gdbarch : Gdbarch) : Int := gdbarch.fp0_regnum

/-- Modelled from the spec: the enumerator `MIPS_ZERO_REGNUM` is declared in
mips-tdep.h, which is not part of the sources at hand.  It is the number of the
lowest general-purpose register (the hard-wired zero register), register 0 in
the spec's scenario "general-purpose registers 0-37". -/
def MIPS_ZERO_REGNUM : Int := 0

/-- Source lines 36-41: determine if PT_GETREGS fetches this register. -/
def getregs_supplies (gdbarch : Gdbarch) (regnum : Int) : Bool :=
  decide (regnum ≥ MIPS_ZERO_REGNUM) && decide (regnum ≤ gdbarch_pc_regnum gdbarch)

/-- The floating-point membership test written inline at source lines 65 and
106: `regnum >= gdbarch_fp0_regnum (...)`. -/
def regnum_ge_fp0 (gdbarch : Gdbarch) (regnum : Int) : Bool :=
  decide (regnum ≥ gdbarch_fp0_regnum gdbarch)

/-! ## Errors -/

/-- What `perror_with_name` throws: the message it was given together with
the `errno` left by the failed system call. -/
structure GdbError where
  msg : String
  errno : Nat
  deriving DecidableEq, Repr

/-- The call `perror_with_name (string)` after a system call failed with `errno`. -/
def perror_with_name (string : String) (errno : Nat) : GdbError := ⟨string, errno⟩

/-! ## External collaborators and state -/

/-- One external call made by the transfer functions, with the arguments that
matter: the process id handed to `ptrace` and, for a request or an adapter that
reads a raw block, the block it was handed.  `R` is `struct reg`, `F` is
`struct fpreg`. -/
inductive Event (R F : Type) where
  | PT_GETREGS (pid : Int)
  | PT_SETREGS (pid : Int) (regs : R)
  | PT_GETFPREGS (pid : Int)
  | PT_SETFPREGS (pid : Int) (fpregs : F)
  | supply_gregs (regnum : Int) (regs : R) (regsize : Nat)
  | supply_fpregs (regnum : Int) (fpregs : F) (regsize : Nat)
  | collect_gregs (regnum : Int) (regs : R) (regsize : Nat)
  | collect_fpregs (regnum : Int) (fpregs : F) (regsize : Nat)

/-- The four `ptrace` requests of the file. -/
inductive PtraceRequest where
  | PT_GETREGS
  | PT_SETREGS
  | PT_GETFPREGS
  | PT_SETFPREGS
  deriving DecidableEq, Repr

/-- The kernel request an event stands for, if it is one. -/
def Event.request {R F : Type} : Event R F → Option PtraceRequest
  | .PT_GETREGS _ => some .PT_GETREGS
  | .PT_SETREGS _ _ => some .PT_SETREGS
  | .PT_GETFPREGS _ => some .PT_GETFPREGS
  | .PT_SETFPREGS _ _ => some .PT_SETFPREGS
  | _ => none

/-- The kernel requests of a log, in order. -/
def requests {R F : Type} (trace : List (Event R F)) : List PtraceRequest :=
  trace.filterMap Event.request

/-- Whether an event is an invocation of one of the four tdep adapters. -/
def Event.isAdapter {R F : Type} : Event R F → Bool
  | .supply_gregs _ _ _ => true
  | .supply_fpregs _ _ _ => true
  | .collect_gregs _ _ _ => true
  | .collect_fpregs _ _ _ => true
  | _ => false

/-- The adapter invocations of a log, in order. -/
def adapterCalls {R F : Type} (trace : List (Event R F)) : List (Event R F) :=
  trace.filter Event.isAdapter

/-- Everything the file takes from outside.  `K` is the kernel-side state of
the traced process, `C` the register cache.

* `inferior_pid` is the value of `get_ptrace_pid (inferior_ptid)`; nothing in
  the file assigns `inferior_ptid`.
* `pt_*` are the four `ptrace` requests.  A request returns `-1` with `errno`
  set (`.error errno`) or succeeds; a successful get request fills the block
  passed as third argument (`.ok block`).  Either way it may leave the process
  in a new state.
* `mips_fbsd_supply_*` write registers of a raw block into the cache,
  `mips_fbsd_collect_*` overlay registers of the (read-only) cache on a raw
  block; the last argument is the size of a slot of the block. -/
structure Env (K C R F : Type) where
  inferior_pid : Int
  get_regcache_arch : C → Gdbarch
  sizeof_register_t : Nat
  sizeof_f_register_t : Nat
  pt_getregs : Int → K → Except Nat R × K
  pt_setregs : Int → R → K → Except Nat Unit × K
  pt_getfpregs : Int → K → Except Nat F × K
  pt_setfpregs : Int → F → K → Except Nat Unit × K
  mips_fbsd_supply_gregs : C → Int → R → Nat → C
  mips_fbsd_supply_fpregs : C → Int → F → Nat → C
  mips_fbsd_collect_gregs : C → Int → R → Nat → R
  mips_fbsd_collect_fpregs : C → Int → F → Nat → F

/-- The state a transfer runs in: the traced process, the register cache and
the log of external calls made so far (oldest first). -/
structure State (K C R F : Type) where
  inferior : K
  regcache : C
  trace : List (Event R F)

/-- The outcome of a transfer: normal return or the error thrown, and the
state left behind. -/
abbrev Outcome (K C R F : Type) := Except GdbError Unit × State K C R F

/-! ## Error messages -/

/-- Message of source lines 57 and 92. -/
def msg_getregs : String := "Couldn't get registers"

/-- Message of source line 99. -/
def msg_setregs : String := "Couldn't write registers"

/-- Message of source lines 71 and 112. -/
def msg_getfpregs : String := "Couldn't get floating point status"

/-- Message of source line 119. -/
def msg_setfpregs : String := "Couldn't write floating point status"

/-! ## Fetch -/

variable {K C R F : Type}

/-- Source lines 64-75: the floating-point block of
`mips_fbsd_fetch_inferior_registers`, run from state `s`. -/
def fetch_fpregs_block (E : Env K C R F) (regnum : Int) (s : State K C R F) :
    Outcome K C R F :=
  if regnum = -1 ∨ regnum_ge_fp0 (E.get_regcache_arch s.regcache) regnum = true then
    match E.pt_getfpregs E.inferior_pid s.inferior with
    | (.error errno, k1) =>
      (.error (perror_with_name msg_getfpregs errno),
        ⟨k1, s.regcache, s.trace ++ [.PT_GETFPREGS E.inferior_pid]⟩)
    | (.ok fpregs, k1) =>
      (.ok (),
        ⟨k1, E.mips_fbsd_supply_fpregs s.regcache regnum fpregs E.sizeof_f_register_t,
          s.trace ++ [.PT_GETFPREGS E.inferior_pid,
            .supply_fpregs regnum fpregs E.sizeof_f_register_t]⟩)
  else
    (.ok (), s)

/-- Source lines 46-76: fetch register `regnum` from the inferior; if `regnum`
is -1, do this for all registers. -/
def mips_fbsd_fetch_inferior_registers (E : Env K C R F) (regnum : Int)
    (s : State K C R F) : Outcome K C R F :=
  let gdbarch := E.get_regcache_arch s.regcache
  if regnum = -1 ∨ getregs_supplies gdbarch regnum = true then
    match E.pt_getregs E.inferior_pid s.inferior with
    | (.error errno, k1) =>
      (.error (perror_with_name msg_getregs errno),
        ⟨k1, s.regcache, s.trace ++ [.PT_GETREGS E.inferior_pid]⟩)
    | (.ok regs, k1) =>
      let s1 : State K C R F :=
        ⟨k1, E.mips_fbsd_supply_gregs s.regcache regnum regs E.sizeof_register_t,
          s.trace ++ [.PT_GETREGS E.inferior_pid,
            .supply_gregs regnum regs E.sizeof_register_t]⟩
      if regnum ≠ -1 then (.ok (), s1)
      else fetch_fpregs_block E regnum s1
  else
    fetch_fpregs_block E regnum s

/-! ## Store -/

/-- Source lines 105-120: the floating-point block of
`mips_fbsd_store_inferior_registers`, run from state `s`. -/
def store_fpregs_block (E : Env K C R F) (regnum : Int) (s : State K C R F) :
    Outcome K C R F :=
  if regnum = -1 ∨ regnum_ge_fp0 (E.get_regcache_arch s.regcache) regnum = true then
    match E.pt_getfpregs E.inferior_pid s.inferior with
    | (.error errno, k1) =>
      (.error (perror_with_name msg_getfpregs errno),
        ⟨k1, s.regcache, s.trace ++ [.PT_GETFPREGS E.inferior_pid]⟩)
    | (.ok fpregs, k1) =>
      let fpregs1 := E.mips_fbsd_collect_fpregs s.regcache regnum fpregs E.sizeof_f_register_t
      let trace1 := s.trace ++ [.PT_GETFPREGS E.inferior_pid,
        .collect_fpregs regnum fpregs E.sizeof_f_register_t,
        .PT_SETFPREGS E.inferior_pid fpregs1]
      match E.pt_setfpregs E.inferior_pid fpregs1 k1 with
      | (.error errno, k2) =>
        (.error (perror_with_name msg_setfpregs errno), ⟨k2, s.regcache, trace1⟩)
      | (.ok (), k2) => (.ok (), ⟨k2, s.regcache, trace1⟩)
  else
    (.ok (), s)

/-- Source lines 81-121: store register `regnum` back into the inferior; if
`regnum` is -1, do this for all registers. -/
def mips_fbsd_store_inferior_registers (E : Env K C R F) (regnum : Int)
    (s : State K C R F) : Outcome K C R F :=
  let gdbarch := E.get_regcache_arch s.regcache
  if regnum = -1 ∨ getregs_supplies gdbarch regnum = true then
    match E.pt_getregs E.inferior_pid s.inferior with
    | (.error errno, k1) =>
      (.error (perror_with_name msg_getregs errno),
        ⟨k1, s.regcache, s.trace ++ [.PT_GETREGS E.inferior_pid]⟩)
    | (.ok regs, k1) =>
      let regs1 := E.mips_fbsd_collect_gregs s.regcache regnum regs E.sizeof_register_t
      let trace1 := s.trace ++ [.PT_GETREGS E.inferior_pid,
        .collect_gregs regnum regs E.sizeof_register_t,
        .PT_SETREGS E.inferior_pid regs1]
      match E.pt_setregs E.inferior_pid regs1 k1 with
      | (.error errno, k2) =>
        (.error (perror_with_name msg_setregs errno), ⟨k2, s.regcache, trace1⟩)
      | (.ok (), k2) =>
        let s1 : State K C R F := ⟨k2, s.regcache, trace1⟩
        if regnum ≠ -1 then (.ok (), s1)
        else store_fpregs_block E regnum s1
  else
    store_fpregs_block E regnum s

/-! ## A simulated environment for concrete runs -/

/-- Kernel-side registers of a simulated process: both banks, indexed by
register number. -/
structure SimKernel where
  regs : Int → Int
  fpregs : Int → Int

/-- A simulated environment for the spec's scenario: general-purpose registers
0-37 (37 is the program counter), floating-point registers 38-69.  The kernel
keeps the blocks it is handed; `fail req = some errno` makes every request
`req` fail with `errno`.  The adapters move register `regnum` of their bank, or
the whole bank when `regnum` is -1. -/
def simEnv (fail : PtraceRequest → Option Nat) :
    Env SimKernel (Int → Int) (Int → Int) (Int → Int) where
  inferior_pid := 100
  get_regcache_arch := fun _ => ⟨37, 38⟩
  sizeof_register_t := 8
  sizeof_f_register_t := 8
  pt_getregs := fun _ k =>
    match fail .PT_GETREGS with
    | some errno => (.error errno, k)
    | none => (.ok k.regs, k)
  pt_setregs := fun _ regs k =>
    match fail .PT_SETREGS with
    | some errno => (.error errno, k)
    | none => (.ok (), ⟨regs, k.fpregs⟩)
  pt_getfpregs := fun _ k =>
    match fail .PT_GETFPREGS with
    | some errno => (.error errno, k)
    | none => (.ok k.fpregs, k)
  pt_setfpregs := fun _ fpregs k =>
    match fail .PT_SETFPREGS with
    | some errno => (.error errno, k)
    | none => (.ok (), ⟨k.regs, fpregs⟩)
  mips_fbsd_supply_gregs := fun c regnum regs _ r =>
    if (regnum = -1 ∨ r = regnum) ∧ 0 ≤ r ∧ r ≤ 37 then regs r else c r
  mips_fbsd_supply_fpregs := fun c regnum fpregs _ r =>
    if (regnum = -1 ∨ r = regnum) ∧ 38 ≤ r ∧ r ≤ 69 then fpregs r else c r
  mips_fbsd_collect_gregs := fun c regnum regs _ r =>
    if (regnum = -1 ∨ r = regnum) ∧ 0 ≤ r ∧ r ≤ 37 then c r else regs r
  mips_fbsd_collect_fpregs := fun c regnum fpregs _ r =>
    if (regnum = -1 ∨ r = regnum) ∧ 38 ≤ r ∧ r ≤ 69 then c r else fpregs r

/-- No request fails. -/
def noFail : PtraceRequest → Option Nat := fun _ => none

/-- Every request `req` fails with `EIO` (5), all others succeed. -/
def failOn (req : PtraceRequest) : PtraceRequest → Option Nat :=
  fun r => if r = req then some 5 else none

/-- A simulated start state: the process holds `100 + r` in general register
`r` and `200 + r` in floating-point register `r`, the cache holds `r` in
register `r`, and nothing has been logged. -/
def simState : State SimKernel (Int → Int) (Int → Int) (Int → Int) :=
  ⟨⟨fun r => 100 + r, fun r => 200 + r⟩, fun r => r, []⟩

/-! ## Classifier -/

/-- C1: `getregs_supplies (gdbarch, regnum)` is true exactly when `regnum` lies
in the closed range from `MIPS_ZERO_REGNUM` to `gdbarch_pc_regnum (gdbarch)`;
in particular it is false for the ALL sentinel -1. -/
theorem getregs_supplies_iff_in_range (gdbarch : Gdbarch) (regnum : Int) :
    (getregs_supplies gdbarch regnum = true ↔
      MIPS_ZERO_REGNUM ≤ regnum ∧ regnum ≤ gdbarch_pc_regnum gdbarch) ∧
    getregs_supplies gdbarch (-1) = false := by
  constructor
  · simp [getregs_supplies]
  · simp [getregs_supplies, MIPS_ZERO_REGNUM]

/-- C2 (as stated, refuted): with pc = 40 and fp0 = 38 register 39 passes both
bank tests, and with pc = 37 and fp0 = 40 register 38 passes neither. -/
theorem bank_tests_overlap_and_gap :
    (getregs_supplies ⟨40, 38⟩ 39 = true ∧ regnum_ge_fp0 ⟨40, 38⟩ 39 = true) ∧
    (getregs_supplies ⟨37, 40⟩ 38 = false ∧ regnum_ge_fp0 ⟨37, 40⟩ 38 = false) := by
  decide

/-- C2 (amended): when the first floating-point register number is pc + 1,
every register index at or above `MIPS_ZERO_REGNUM` passes exactly one of the
two bank tests, and the two guards of fetch and store (`regnum == -1 || ...`)
hold together for the ALL sentinel -1 only. -/
theorem bank_tests_partition_of_adjacent (gdbarch : Gdbarch) (regnum : Int)
    (hadj : gdbarch_fp0_regnum gdbarch = gdbarch_pc_regnum gdbarch + 1) :
    (MIPS_ZERO_REGNUM ≤ regnum →
      (getregs_supplies gdbarch regnum = true ↔ regnum_ge_fp0 gdbarch regnum = false)) ∧
    (((regnum = -1 ∨ getregs_supplies gdbarch regnum = true) ∧
      (regnum = -1 ∨ regnum_ge_fp0 gdbarch regnum = true)) ↔ regnum = -1) := by
  simp only [getregs_supplies, regnum_ge_fp0, MIPS_ZERO_REGNUM, hadj, Bool.and_eq_true,
    decide_eq_true_eq, decide_eq_false_iff_not, ge_iff_le]
  constructor
  · intro h
    constructor
    · rintro ⟨_, h2⟩
      omega
    · intro h2
      exact ⟨h, by omega⟩
  · constructor
    · rintro ⟨h1 | ⟨h1, h2⟩, h3 | h3⟩ <;> first | assumption | omega
    · intro h
      exact ⟨Or.inl h, Or.inl h⟩

/-- Witness for C2 (amended): pc = 37, fp0 = 38; register 38 fails the general
test and passes the floating-point test. -/
theorem bank_tests_partition_of_adjacent_witness :
    gdbarch_fp0_regnum ⟨37, 38⟩ = gdbarch_pc_regnum ⟨37, 38⟩ + 1 ∧
    (getregs_supplies ⟨37, 38⟩ 38 = true ↔ regnum_ge_fp0 ⟨37, 38⟩ 38 = false) :=
  ⟨by decide, (bank_tests_partition_of_adjacent ⟨37, 38⟩ 38 (by decide)).1 (by decide)⟩

/-! ## Helper lemmas -/

/-- The general-bank test, as arithmetic on the register numbers. -/
theorem getregs_supplies_eq_true_iff (gdbarch : Gdbarch) (regnum : Int) :
    getregs_supplies gdbarch regnum = true ↔ 0 ≤ regnum ∧ regnum ≤ gdbarch.pc_regnum := by
  simp [getregs_supplies, MIPS_ZERO_REGNUM, gdbarch_pc_regnum]

/-- The floating-point test, as arithmetic on the register numbers. -/
theorem regnum_ge_fp0_eq_true_iff (gdbarch : Gdbarch) (regnum : Int) :
    regnum_ge_fp0 gdbarch regnum = true ↔ gdbarch.fp0_regnum ≤ regnum := by
  simp [regnum_ge_fp0, gdbarch_fp0_regnum]

/-- The kernel requests of a log that was extended. -/
theorem requests_append (t1 t2 : List (Event R F)) :
    requests (t1 ++ t2) = requests t1 ++ requests t2 := by
  simp [requests]

/-- The adapter invocations of a log that was extended. -/
theorem adapterCalls_append (t1 t2 : List (Event R F)) :
    adapterCalls (t1 ++ t2) = adapterCalls t1 ++ adapterCalls t2 := by
  simp [adapterCalls]

/-! ## Transfers outside both banks -/

/-- C10: for a register index that is not the ALL sentinel -1, not in the
general bank (0 <= regnum <= pc) and below the first floating-point register
number, fetch and store both return successfully and leave the state as it was:
the process, the register cache and the log of external calls (no kernel
request, no adapter). -/
theorem transfer_outside_both_banks (E : Env K C R F) (regnum : Int) (s : State K C R F)
    (hall : regnum ≠ -1)
    (hgen : ¬ (0 ≤ regnum ∧ regnum ≤ gdbarch_pc_regnum (E.get_regcache_arch s.regcache)))
    (hfp : regnum < gdbarch_fp0_regnum (E.get_regcache_arch s.regcache)) :
    mips_fbsd_fetch_inferior_registers E regnum s = (.ok (), s) ∧
    mips_fbsd_store_inferior_registers E regnum s = (.ok (), s) := by
  have h1 : ¬ getregs_supplies (E.get_regcache_arch s.regcache) regnum = true := by
    rw [getregs_supplies_eq_true_iff]
    exact hgen
  have h2 : ¬ regnum_ge_fp0 (E.get_regcache_arch s.regcache) regnum = true := by
    rw [regnum_ge_fp0_eq_true_iff]
    exact not_le.mpr hfp
  constructor
  · simp [mips_fbsd_fetch_inferior_registers, fetch_fpregs_block, hall, h1, h2]
  · simp [mips_fbsd_store_inferior_registers, store_fpregs_block, hall, h1, h2]

/-- Witness for C10: index -2 in the simulated scenario lies below both banks. -/
theorem transfer_outside_both_banks_witness :
    mips_fbsd_fetch_inferior_registers (simEnv noFail) (-2) simState = (.ok (), simState) ∧
    mips_fbsd_store_inferior_registers (simEnv noFail) (-2) simState = (.ok (), simState) :=
  transfer_outside_both_banks (simEnv noFail) (-2) simState (by decide) (by decide) (by decide)

/-! ## Fetch of all registers when the general read fails -/

/-- C3: if PT_GETREGS fails during a fetch of all registers (regnum = -1), the
fetch fails with "Couldn't get registers", the only external call made is that
PT_GETREGS (no PT_GETFPREGS, no adapter), and the register cache is what it was
before the call. -/
theorem fetch_all_general_read_fails (E : Env K C R F) (s : State K C R F)
    (errno : Nat) (k1 : K)
    (hfail : E.pt_getregs E.inferior_pid s.inferior = (.error errno, k1)) :
    mips_fbsd_fetch_inferior_registers E (-1) s =
      (.error ⟨"Couldn't get registers", errno⟩,
        ⟨k1, s.regcache, s.trace ++ [.PT_GETREGS E.inferior_pid]⟩) ∧
    requests (mips_fbsd_fetch_inferior_registers E (-1) s).2.trace =
      requests s.trace ++ [.PT_GETREGS] ∧
    adapterCalls (mips_fbsd_fetch_inferior_registers E (-1) s).2.trace =
      adapterCalls s.trace ∧
    (mips_fbsd_fetch_inferior_registers E (-1) s).2.regcache = s.regcache := by
  have h : mips_fbsd_fetch_inferior_registers E (-1) s =
      (.error ⟨"Couldn't get registers", errno⟩,
        ⟨k1, s.regcache, s.trace ++ [.PT_GETREGS E.inferior_pid]⟩) := by
    simp [mips_fbsd_fetch_inferior_registers, hfail, perror_with_name, msg_getregs]
  rw [h]
  refine ⟨rfl, ?_, ?_, rfl⟩
  · simp [requests_append, requests, Event.request]
  · simp [adapterCalls_append, adapterCalls, Event.isAdapter]

/-- Witness for C3: the simulated kernel fails every PT_GETREGS with errno 5. -/
theorem fetch_all_general_read_fails_witness :
    (simEnv (failOn .PT_GETREGS)).pt_getregs 100 simState.inferior =
      (.error 5, simState.inferior) ∧
    mips_fbsd_fetch_inferior_registers (simEnv (failOn .PT_GETREGS)) (-1) simState =
      (.error ⟨"Couldn't get registers", 5⟩,
        ⟨simState.inferior, simState.regcache, [.PT_GETREGS 100]⟩) :=
  ⟨rfl, (fetch_all_general_read_fails (simEnv (failOn .PT_GETREGS)) simState 5
    simState.inferior rfl).1⟩

/-! ## Transfers of all registers -/

/-- C6: for regnum = -1, when no kernel request fails, a fetch makes exactly
the external calls PT_GETREGS, supply_gregs, PT_GETFPREGS, supply_fpregs in this
order, and a store exactly PT_GETREGS, collect_gregs, PT_SETREGS, PT_GETFPREGS,
collect_fpregs, PT_SETFPREGS in this order: each bank once, the general bank
first, each adapter once.  Both return successfully. -/
theorem all_registers_both_banks_in_order (E : Env K C R F) (s : State K C R F) :
    (∀ regs k1 fpregs k2,
      E.pt_getregs E.inferior_pid s.inferior = (.ok regs, k1) →
      E.pt_getfpregs E.inferior_pid k1 = (.ok fpregs, k2) →
      mips_fbsd_fetch_inferior_registers E (-1) s =
        (.ok (),
          ⟨k2,
            E.mips_fbsd_supply_fpregs
              (E.mips_fbsd_supply_gregs s.regcache (-1) regs E.sizeof_register_t)
              (-1) fpregs E.sizeof_f_register_t,
            s.trace ++ [.PT_GETREGS E.inferior_pid,
              .supply_gregs (-1) regs E.sizeof_register_t,
              .PT_GETFPREGS E.inferior_pid,
              .supply_fpregs (-1) fpregs E.sizeof_f_register_t]⟩)) ∧
    (∀ regs k1 k2 fpregs k3 k4,
      E.pt_getregs E.inferior_pid s.inferior = (.ok regs, k1) →
      E.pt_setregs E.inferior_pid
        (E.mips_fbsd_collect_gregs s.regcache (-1) regs E.sizeof_register_t) k1 =
          (.ok (), k2) →
      E.pt_getfpregs E.inferior_pid k2 = (.ok fpregs, k3) →
      E.pt_setfpregs E.inferior_pid
        (E.mips_fbsd_collect_fpregs s.regcache (-1) fpregs E.sizeof_f_register_t) k3 =
          (.ok (), k4) →
      mips_fbsd_store_inferior_registers E (-1) s =
        (.ok (),
          ⟨k4, s.regcache,
            s.trace ++ [.PT_GETREGS E.inferior_pid,
              .collect_gregs (-1) regs E.sizeof_register_t,
              .PT_SETREGS E.inferior_pid
                (E.mips_fbsd_collect_gregs s.regcache (-1) regs E.sizeof_register_t),
              .PT_GETFPREGS E.inferior_pid,
              .collect_fpregs (-1) fpregs E.sizeof_f_register_t,
              .PT_SETFPREGS E.inferior_pid
                (E.mips_fbsd_collect_fpregs s.regcache (-1) fpregs
                  E.sizeof_f_register_t)]⟩)) := by
  constructor
  · intro regs k1 fpregs k2 hg hf
    simp [mips_fbsd_fetch_inferior_registers, fetch_fpregs_block, hg, hf]
  · intro regs k1 k2 fpregs k3 k4 hg hs hf hsf
    simp [mips_fbsd_store_inferior_registers, store_fpregs_block, hg, hs, hf, hsf]

/-- Witness for C6: fetch and store of all registers in the simulated scenario
with no failing request; the requests are issued in bank order. -/
theorem all_registers_both_banks_in_order_witness :
    requests (mips_fbsd_fetch_inferior_registers (simEnv noFail) (-1) simState).2.trace =
      [.PT_GETREGS, .PT_GETFPREGS] ∧
    requests (mips_fbsd_store_inferior_registers (simEnv noFail) (-1) simState).2.trace =
      [.PT_GETREGS, .PT_SETREGS, .PT_GETFPREGS, .PT_SETFPREGS] := by
  have h := all_registers_both_banks_in_order (simEnv noFail) simState
  constructor
  · rw [h.1 _ _ _ _ rfl rfl]
    rfl
  · rw [h.2 _ _ _ _ _ _ rfl rfl rfl rfl]
    rfl

/-! ## Fetch of a single register -/

/-- C8: failures abort at once, in bank order, and nothing is rolled back.
Fetch of all registers: if PT_GETREGS succeeds and PT_GETFPREGS fails, the fetch
fails with "Couldn't get floating point status" and the cache is the result of
supply_gregs on the cache before the call.  Store of all registers: if
PT_GETREGS fails, or PT_GETREGS succeeds and PT_SETREGS fails, the store fails
having issued no floating-point request; if both succeed and PT_GETFPREGS or
PT_SETFPREGS then fails, the store fails having issued PT_SETREGS once and
nothing after the failing request, the process being left as that request left
it. -/
theorem failures_abort_without_rollback (E : Env K C R F) (s : State K C R F) :
    (∀ regs k1 errno k2,
      E.pt_getregs E.inferior_pid s.inferior = (.ok regs, k1) →
      E.pt_getfpregs E.inferior_pid k1 = (.error errno, k2) →
      mips_fbsd_fetch_inferior_registers E (-1) s =
        (.error ⟨"Couldn't get floating point status", errno⟩,
          ⟨k2, E.mips_fbsd_supply_gregs s.regcache (-1) regs E.sizeof_register_t,
            s.trace ++ [.PT_GETREGS E.inferior_pid,
              .supply_gregs (-1) regs E.sizeof_register_t,
              .PT_GETFPREGS E.inferior_pid]⟩)) ∧
    (∀ errno k1,
      E.pt_getregs E.inferior_pid s.inferior = (.error errno, k1) →
      mips_fbsd_store_inferior_registers E (-1) s =
        (.error ⟨"Couldn't get registers", errno⟩,
          ⟨k1, s.regcache, s.trace ++ [.PT_GETREGS E.inferior_pid]⟩)) ∧
    (∀ regs k1 errno k2,
      E.pt_getregs E.inferior_pid s.inferior = (.ok regs, k1) →
      E.pt_setregs E.inferior_pid
        (E.mips_fbsd_collect_gregs s.regcache (-1) regs E.sizeof_register_t) k1 =
          (.error errno, k2) →
      mips_fbsd_store_inferior_registers E (-1) s =
        (.error ⟨"Couldn't write registers", errno⟩,
          ⟨k2, s.regcache,
            s.trace ++ [.PT_GETREGS E.inferior_pid,
              .collect_gregs (-1) regs E.sizeof_register_t,
              .PT_SETREGS E.inferior_pid
                (E.mips_fbsd_collect_gregs s.regcache (-1) regs
                  E.sizeof_register_t)]⟩)) ∧
    (∀ regs k1 k2 errno k3,
      E.pt_getregs E.inferior_pid s.inferior = (.ok regs, k1) →
      E.pt_setregs E.inferior_pid
        (E.mips_fbsd_collect_gregs s.regcache (-1) regs E.sizeof_register_t) k1 =
          (.ok (), k2) →
      E.pt_getfpregs E.inferior_pid k2 = (.error errno, k3) →
      mips_fbsd_store_inferior_registers E (-1) s =
        (.error ⟨"Couldn't get floating point status", errno⟩,
          ⟨k3, s.regcache,
            s.trace ++ [.PT_GETREGS E.inferior_pid,
              .collect_gregs (-1) regs E.sizeof_register_t,
              .PT_SETREGS E.inferior_pid
                (E.mips_fbsd_collect_gregs s.regcache (-1) regs E.sizeof_register_t),
              .PT_GETFPREGS E.inferior_pid]⟩)) ∧
    (∀ regs k1 k2 fpregs k3 errno k4,
      E.pt_getregs E.inferior_pid s.inferior = (.ok regs, k1) →
      E.pt_setregs E.inferior_pid
        (E.mips_fbsd_collect_gregs s.regcache (-1) regs E.sizeof_register_t) k1 =
          (.ok (), k2) →
      E.pt_getfpregs E.inferior_pid k2 = (.ok fpregs, k3) →
      E.pt_setfpregs E.inferior_pid
        (E.mips_fbsd_collect_fpregs s.regcache (-1) fpregs E.sizeof_f_register_t) k3 =
          (.error errno, k4) →
      mips_fbsd_store_inferior_registers E (-1) s =
        (.error ⟨"Couldn't write floating point status", errno⟩,
          ⟨k4, s.regcache,
            s.trace ++ [.PT_GETREGS E.inferior_pid,
              .collect_gregs (-1) regs E.sizeof_register_t,
              .PT_SETREGS E.inferior_pid
                (E.mips_fbsd_collect_gregs s.regcache (-1) regs E.sizeof_register_t),
              .PT_GETFPREGS E.inferior_pid,
              .collect_fpregs (-1) fpregs E.sizeof_f_register_t,
              .PT_SETFPREGS E.inferior_pid
                (E.mips_fbsd_collect_fpregs s.regcache (-1) fpregs
                  E.sizeof_f_register_t)]⟩)) := by
  refine ⟨?_, ?_, ?_, ?_, ?_⟩
  · intro regs k1 errno k2 hg hf
    simp [mips_fbsd_fetch_inferior_registers, fetch_fpregs_block, hg, hf,
      perror_with_name, msg_getfpregs]
  · intro errno k1 hg
    simp [mips_fbsd_store_inferior_registers, hg, perror_with_name, msg_getregs]
  · intro regs k1 errno k2 hg hs
    simp [mips_fbsd_store_inferior_registers, hg, hs, perror_with_name, msg_setregs]
  · intro regs k1 k2 errno k3 hg hs hf
    simp [mips_fbsd_store_inferior_registers, store_fpregs_block, hg, hs, hf,
      perror_with_name, msg_getfpregs]
  · intro regs k1 k2 fpregs k3 errno k4 hg hs hf hsf
    simp [mips_fbsd_store_inferior_registers, store_fpregs_block, hg, hs, hf, hsf,
      perror_with_name, msg_setfpregs]

/-- Witness for C8: in the simulated scenario with every PT_GETFPREGS failing,
a fetch of all registers fails after the general bank was supplied (cache slot
5 now holds the kernel's 105, slot 40 still holds 40), and a store of all
registers fails after the general bank was written (the kernel's register 5 now
holds the cache's 5) with PT_GETFPREGS the last request. -/
theorem failures_abort_without_rollback_witness :
    ((mips_fbsd_fetch_inferior_registers (simEnv (failOn .PT_GETFPREGS)) (-1) simState).1 =
        .error ⟨"Couldn't get floating point status", 5⟩ ∧
      (mips_fbsd_fetch_inferior_registers (simEnv (failOn .PT_GETFPREGS)) (-1)
        simState).2.regcache 5 = 105 ∧
      (mips_fbsd_fetch_inferior_registers (simEnv (failOn .PT_GETFPREGS)) (-1)
        simState).2.regcache 40 = 40) ∧
    ((mips_fbsd_store_inferior_registers (simEnv (failOn .PT_GETFPREGS)) (-1) simState).1 =
        .error ⟨"Couldn't get floating point status", 5⟩ ∧
      (mips_fbsd_store_inferior_registers (simEnv (failOn .PT_GETFPREGS)) (-1)
        simState).2.inferior.regs 5 = 5 ∧
      requests (mips_fbsd_store_inferior_registers (simEnv (failOn .PT_GETFPREGS)) (-1)
        simState).2.trace = [.PT_GETREGS, .PT_SETREGS, .PT_GETFPREGS]) := by
  have h := failures_abort_without_rollback (simEnv (failOn .PT_GETFPREGS)) simState
  constructor
  · rw [h.1 _ _ _ _ rfl rfl]
    exact ⟨rfl, by decide, by decide⟩
  · rw [h.2.2.2.1 _ _ _ _ _ rfl rfl rfl]
    exact ⟨rfl, by decide, rfl⟩

/-! ## Store, path by path -/

/-- The floating-point block of store does nothing for a single index below fp0. -/
theorem store_fpregs_block_skip (E : Env K C R F) (regnum : Int) (s : State K C R F)
    (hall : regnum ≠ -1)
    (hfp : ¬ regnum_ge_fp0 (E.get_regcache_arch s.regcache) regnum = true) :
    store_fpregs_block E regnum s = (.ok (), s) := by
  simp [store_fpregs_block, hall, hfp]

/-- The floating-point block of store when PT_GETFPREGS fails. -/
theorem store_fpregs_block_get_error (E : Env K C R F) (regnum : Int) (s : State K C R F)
    (errno : Nat) (k1 : K)
    (hguard : regnum = -1 ∨ regnum_ge_fp0 (E.get_regcache_arch s.regcache) regnum = true)
    (hf : E.pt_getfpregs E.inferior_pid s.inferior = (.error errno, k1)) :
    store_fpregs_block E regnum s =
      (.error ⟨msg_getfpregs, errno⟩,
        ⟨k1, s.regcache, s.trace ++ [.PT_GETFPREGS E.inferior_pid]⟩) := by
  simp [store_fpregs_block, hguard, hf, perror_with_name]

/-- The floating-point block of store when PT_SETFPREGS fails. -/
theorem store_fpregs_block_set_error (E : Env K C R F) (regnum : Int) (s : State K C R F)
    (fpregs : F) (errno : Nat) (k1 k2 : K)
    (hguard : regnum = -1 ∨ regnum_ge_fp0 (E.get_regcache_arch s.regcache) regnum = true)
    (hf : E.pt_getfpregs E.inferior_pid s.inferior = (.ok fpregs, k1))
    (hsf : E.pt_setfpregs E.inferior_pid
      (E.mips_fbsd_collect_fpregs s.regcache regnum fpregs E.sizeof_f_register_t) k1 =
        (.error errno, k2)) :
    store_fpregs_block E regnum s =
      (.error ⟨msg_setfpregs, errno⟩,
        ⟨k2, s.regcache,
          s.trace ++ [.PT_GETFPREGS E.inferior_pid,
            .collect_fpregs regnum fpregs E.sizeof_f_register_t,
            .PT_SETFPREGS E.inferior_pid
              (E.mips_fbsd_collect_fpregs s.regcache regnum fpregs
                E.sizeof_f_register_t)]⟩) := by
  simp [store_fpregs_block, hguard, hf, hsf, perror_with_name]

/-- The floating-point block of store when both requests succeed. -/
theorem store_fpregs_block_ok (E : Env K C R F) (regnum : Int) (s : State K C R F)
    (fpregs : F) (k1 k2 : K)
    (hguard : regnum = -1 ∨ regnum_ge_fp0 (E.get_regcache_arch s.regcache) regnum = true)
    (hf : E.pt_getfpregs E.inferior_pid s.inferior = (.ok fpregs, k1))
    (hsf : E.pt_setfpregs E.inferior_pid
      (E.mips_fbsd_collect_fpregs s.regcache regnum fpregs E.sizeof_f_register_t) k1 =
        (.ok (), k2)) :
    store_fpregs_block E regnum s =
      (.ok (),
        ⟨k2, s.regcache,
          s.trace ++ [.PT_GETFPREGS E.inferior_pid,
            .collect_fpregs regnum fpregs E.sizeof_f_register_t,
            .PT_SETFPREGS E.inferior_pid
              (E.mips_fbsd_collect_fpregs s.regcache regnum fpregs
                E.sizeof_f_register_t)]⟩) := by
  simp [store_fpregs_block, hguard, hf, hsf]

/-- Store of a single index outside the general bank runs the floating-point
block only. -/
theorem store_skip_general (E : Env K C R F) (regnum : Int) (s : State K C R F)
    (hall : regnum ≠ -1)
    (hgen : ¬ getregs_supplies (E.get_regcache_arch s.regcache) regnum = true) :
    mips_fbsd_store_inferior_registers E regnum s = store_fpregs_block E regnum s := by
  simp [mips_fbsd_store_inferior_registers, hall, hgen]

/-- Store in the general bank when PT_GETREGS fails. -/
theorem store_get_error (E : Env K C R F) (regnum : Int) (s : State K C R F)
    (errno : Nat) (k1 : K)
    (hguard : regnum = -1 ∨ getregs_supplies (E.get_regcache_arch s.regcache) regnum = true)
    (hg : E.pt_getregs E.inferior_pid s.inferior = (.error errno, k1)) :
    mips_fbsd_store_inferior_registers E regnum s =
      (.error ⟨msg_getregs, errno⟩,
        ⟨k1, s.regcache, s.trace ++ [.PT_GETREGS E.inferior_pid]⟩) := by
  simp [mips_fbsd_store_inferior_registers, hguard, hg, perror_with_name]

/-- Store in the general bank when PT_SETREGS fails. -/
theorem store_set_error (E : Env K C R F) (regnum : Int) (s : State K C R F)
    (regs : R) (errno : Nat) (k1 k2 : K)
    (hguard : regnum = -1 ∨ getregs_supplies (E.get_regcache_arch s.regcache) regnum = true)
    (hg : E.pt_getregs E.inferior_pid s.inferior = (.ok regs, k1))
    (hs : E.pt_setregs E.inferior_pid
      (E.mips_fbsd_collect_gregs s.regcache regnum regs E.sizeof_register_t) k1 =
        (.error errno, k2)) :
    mips_fbsd_store_inferior_registers E regnum s =
      (.error ⟨msg_setregs, errno⟩,
        ⟨k2, s.regcache,
          s.trace ++ [.PT_GETREGS E.inferior_pid,
            .collect_gregs regnum regs E.sizeof_register_t,
            .PT_SETREGS E.inferior_pid
              (E.mips_fbsd_collect_gregs s.regcache regnum regs
                E.sizeof_register_t)]⟩) := by
  simp [mips_fbsd_store_inferior_registers, hguard, hg, hs, perror_with_name]

/-- Store of a single general-bank index when both requests succeed. -/
theorem store_general_ok_single (E : Env K C R F) (regnum : Int) (s : State K C R F)
    (regs : R) (k1 k2 : K) (hall : regnum ≠ -1)
    (hgen : getregs_supplies (E.get_regcache_arch s.regcache) regnum = true)
    (hg : E.pt_getregs E.inferior_pid s.inferior = (.ok regs, k1))
    (hs : E.pt_setregs E.inferior_pid
      (E.mips_fbsd_collect_gregs s.regcache regnum regs E.sizeof_register_t) k1 =
        (.ok (), k2)) :
    mips_fbsd_store_inferior_registers E regnum s =
      (.ok (),
        ⟨k2, s.regcache,
          s.trace ++ [.PT_GETREGS E.inferior_pid,
            .collect_gregs regnum regs E.sizeof_register_t,
            .PT_SETREGS E.inferior_pid
              (E.mips_fbsd_collect_gregs s.regcache regnum regs
                E.sizeof_register_t)]⟩) := by
  simp [mips_fbsd_store_inferior_registers, hall, hgen, hg, hs]

/-- Store of all registers once the general bank is written: the
floating-point block runs next. -/
theorem store_general_ok_all (E : Env K C R F) (s : State K C R F)
    (regs : R) (k1 k2 : K)
    (hg : E.pt_getregs E.inferior_pid s.inferior = (.ok regs, k1))
    (hs : E.pt_setregs E.inferior_pid
      (E.mips_fbsd_collect_gregs s.regcache (-1) regs E.sizeof_register_t) k1 =
        (.ok (), k2)) :
    mips_fbsd_store_inferior_registers E (-1) s =
      store_fpregs_block E (-1)
        ⟨k2, s.regcache,
          s.trace ++ [.PT_GETREGS E.inferior_pid,
            .collect_gregs (-1) regs E.sizeof_register_t,
            .PT_SETREGS E.inferior_pid
              (E.mips_fbsd_collect_gregs s.regcache (-1) regs
                E.sizeof_register_t)]⟩ := by
  simp [mips_fbsd_store_inferior_registers, hg, hs]

/-- The floating-point block of store only appends to the log, and the kernel
requests it appends are floating-point requests. -/
theorem store_fpregs_block_trace (E : Env K C R F) (regnum : Int) (s : State K C R F) :
    ∃ rest, (store_fpregs_block E regnum s).2.trace = s.trace ++ rest ∧
      ∀ q ∈ requests rest, q = .PT_GETFPREGS ∨ q = .PT_SETFPREGS := by
  by_cases hguard :
      regnum = -1 ∨ regnum_ge_fp0 (E.get_regcache_arch s.regcache) regnum = true
  · rcases hf : E.pt_getfpregs E.inferior_pid s.inferior with ⟨errno | fpregs, k1⟩
    · rw [store_fpregs_block_get_error E regnum s errno k1 hguard hf]
      exact ⟨_, rfl, by simp [requests, Event.request]⟩
    · rcases hsf : E.pt_setfpregs E.inferior_pid
          (E.mips_fbsd_collect_fpregs s.regcache regnum fpregs E.sizeof_f_register_t) k1
        with ⟨errno | ⟨⟩, k2⟩
      · rw [store_fpregs_block_set_error E regnum s fpregs errno k1 k2 hguard hf hsf]
        exact ⟨_, rfl, by simp [requests, Event.request]⟩
      · rw [store_fpregs_block_ok E regnum s fpregs k1 k2 hguard hf hsf]
        exact ⟨_, rfl, by simp [requests, Event.request]⟩
  · rw [not_or] at hguard
    rw [store_fpregs_block_skip E regnum s hguard.1 hguard.2]
    exact ⟨[], by simp, by simp [requests]⟩

/-- The floating-point block of store never assigns the register cache. -/
theorem store_fpregs_block_regcache (E : Env K C R F) (regnum : Int) (s : State K C R F) :
    (store_fpregs_block E regnum s).2.regcache = s.regcache := by
  by_cases hguard :
      regnum = -1 ∨ regnum_ge_fp0 (E.get_regcache_arch s.regcache) regnum = true
  · rcases hf : E.pt_getfpregs E.inferior_pid s.inferior with ⟨errno | fpregs, k1⟩
    · rw [store_fpregs_block_get_error E regnum s errno k1 hguard hf]
    · rcases hsf : E.pt_setfpregs E.inferior_pid
          (E.mips_fbsd_collect_fpregs s.regcache regnum fpregs E.sizeof_f_register_t) k1
        with ⟨errno | ⟨⟩, k2⟩
      · rw [store_fpregs_block_set_error E regnum s fpregs errno k1 k2 hguard hf hsf]
      · rw [store_fpregs_block_ok E regnum s fpregs k1 k2 hguard hf hsf]
  · rw [not_or] at hguard
    rw [store_fpregs_block_skip E regnum s hguard.1 hguard.2]

/-! ## Store is a read-modify-write -/

/-- The log of a store.  For regnum = -1 or a general-bank index, once
PT_GETREGS has returned a block B, the next external calls are collect_gregs
(cache, regnum, B, sizeof (register_t)) and PT_SETREGS, for the same process,
with the block collect_gregs returned; any later request is a floating-point
one.  The floating-point path does the same with PT_GETFPREGS, collect_fpregs,
sizeof (f_register_t) and PT_SETFPREGS.  A store of a single general-bank index
adds no floating-point request to the log, and a store never changes the
register cache. -/
theorem store_log_shape (E : Env K C R F) (regnum : Int) (s : State K C R F) :
    ((regnum = -1 ∨
        (0 ≤ regnum ∧ regnum ≤ gdbarch_pc_regnum (E.get_regcache_arch s.regcache))) →
      ∀ regs k1, E.pt_getregs E.inferior_pid s.inferior = (.ok regs, k1) →
        ∃ rest,
          (mips_fbsd_store_inferior_registers E regnum s).2.trace =
            s.trace ++ [.PT_GETREGS E.inferior_pid,
              .collect_gregs regnum regs E.sizeof_register_t,
              .PT_SETREGS E.inferior_pid
                (E.mips_fbsd_collect_gregs s.regcache regnum regs E.sizeof_register_t)]
              ++ rest ∧
          ∀ q ∈ requests rest, q = .PT_GETFPREGS ∨ q = .PT_SETFPREGS) ∧
    (regnum ≠ -1 →
      ¬ (0 ≤ regnum ∧ regnum ≤ gdbarch_pc_regnum (E.get_regcache_arch s.regcache)) →
      gdbarch_fp0_regnum (E.get_regcache_arch s.regcache) ≤ regnum →
      ∀ fpregs k1, E.pt_getfpregs E.inferior_pid s.inferior = (.ok fpregs, k1) →
        (mips_fbsd_store_inferior_registers E regnum s).2.trace =
          s.trace ++ [.PT_GETFPREGS E.inferior_pid,
            .collect_fpregs regnum fpregs E.sizeof_f_register_t,
            .PT_SETFPREGS E.inferior_pid
              (E.mips_fbsd_collect_fpregs s.regcache regnum fpregs
                E.sizeof_f_register_t)]) ∧
    (∀ regs k1 k2 fpregs k3,
      E.pt_getregs E.inferior_pid s.inferior = (.ok regs, k1) →
      E.pt_setregs E.inferior_pid
        (E.mips_fbsd_collect_gregs s.regcache (-1) regs E.sizeof_register_t) k1 =
          (.ok (), k2) →
      E.pt_getfpregs E.inferior_pid k2 = (.ok fpregs, k3) →
      (mips_fbsd_store_inferior_registers E (-1) s).2.trace =
        s.trace ++ [.PT_GETREGS E.inferior_pid,
          .collect_gregs (-1) regs E.sizeof_register_t,
          .PT_SETREGS E.inferior_pid
            (E.mips_fbsd_collect_gregs s.regcache (-1) regs E.sizeof_register_t),
          .PT_GETFPREGS E.inferior_pid,
          .collect_fpregs (-1) fpregs E.sizeof_f_register_t,
          .PT_SETFPREGS E.inferior_pid
            (E.mips_fbsd_collect_fpregs s.regcache (-1) fpregs
              E.sizeof_f_register_t)]) ∧
    (regnum ≠ -1 →
      (0 ≤ regnum ∧ regnum ≤ gdbarch_pc_regnum (E.get_regcache_arch s.regcache)) →
      (requests (mips_fbsd_store_inferior_registers E regnum s).2.trace).count
          .PT_SETFPREGS = (requests s.trace).count .PT_SETFPREGS ∧
      (requests (mips_fbsd_store_inferior_registers E regnum s).2.trace).count
          .PT_GETFPREGS = (requests s.trace).count .PT_GETFPREGS) ∧
    (mips_fbsd_store_inferior_registers E regnum s).2.regcache = s.regcache := by
  refine ⟨?_, ?_, ?_, ?_, ?_⟩
  · intro hguard regs k1 hg
    have hguard1 : regnum = -1 ∨
        getregs_supplies (E.get_regcache_arch s.regcache) regnum = true :=
      hguard.imp id (getregs_supplies_eq_true_iff _ _).mpr
    rcases hs : E.pt_setregs E.inferior_pid
        (E.mips_fbsd_collect_gregs s.regcache regnum regs E.sizeof_register_t) k1
      with ⟨errno | ⟨⟩, k2⟩
    · rw [store_set_error E regnum s regs errno k1 k2 hguard1 hg hs]
      exact ⟨[], by simp, by simp [requests]⟩
    · by_cases hall : regnum = -1
      · subst hall
        rw [store_general_ok_all E s regs k1 k2 hg hs]
        obtain ⟨rest, hrest, hreq⟩ := store_fpregs_block_trace E (-1)
          ⟨k2, s.regcache, s.trace ++ [.PT_GETREGS E.inferior_pid,
            .collect_gregs (-1) regs E.sizeof_register_t,
            .PT_SETREGS E.inferior_pid
              (E.mips_fbsd_collect_gregs s.regcache (-1) regs E.sizeof_register_t)]⟩
        exact ⟨rest, hrest, hreq⟩
      · have hgen := hguard1.resolve_left hall
        rw [store_general_ok_single E regnum s regs k1 k2 hall hgen hg hs]
        exact ⟨[], by simp, by simp [requests]⟩
  · intro hall hgen hfp fpregs k1 hf
    have h1 : ¬ getregs_supplies (E.get_regcache_arch s.regcache) regnum = true := by
      rw [getregs_supplies_eq_true_iff]
      exact hgen
    have h2 : regnum = -1 ∨
        regnum_ge_fp0 (E.get_regcache_arch s.regcache) regnum = true :=
      Or.inr ((regnum_ge_fp0_eq_true_iff _ _).mpr hfp)
    rw [store_skip_general E regnum s hall h1]
    rcases hsf : E.pt_setfpregs E.inferior_pid
        (E.mips_fbsd_collect_fpregs s.regcache regnum fpregs E.sizeof_f_register_t) k1
      with ⟨errno | ⟨⟩, k2⟩
    · rw [store_fpregs_block_set_error E regnum s fpregs errno k1 k2 h2 hf hsf]
    · rw [store_fpregs_block_ok E regnum s fpregs k1 k2 h2 hf hsf]
  · intro regs k1 k2 fpregs k3 hg hs hf
    rw [store_general_ok_all E s regs k1 k2 hg hs]
    rcases hsf : E.pt_setfpregs E.inferior_pid
        (E.mips_fbsd_collect_fpregs s.regcache (-1) fpregs E.sizeof_f_register_t) k3
      with ⟨errno | ⟨⟩, k4⟩
    · rw [store_fpregs_block_set_error E (-1)
        (State.mk k2 s.regcache (s.trace ++ [Event.PT_GETREGS E.inferior_pid,
          Event.collect_gregs (-1) regs E.sizeof_register_t,
          Event.PT_SETREGS E.inferior_pid
            (E.mips_fbsd_collect_gregs s.regcache (-1) regs E.sizeof_register_t)]))
        fpregs errno k3 k4 (Or.inl rfl) hf hsf]
      simp
    · rw [store_fpregs_block_ok E (-1)
        (State.mk k2 s.regcache (s.trace ++ [Event.PT_GETREGS E.inferior_pid,
          Event.collect_gregs (-1) regs E.sizeof_register_t,
          Event.PT_SETREGS E.inferior_pid
            (E.mips_fbsd_collect_gregs s.regcache (-1) regs E.sizeof_register_t)]))
        fpregs k3 k4 (Or.inl rfl) hf hsf]
      simp
  · intro hall hgen
    have h1 : getregs_supplies (E.get_regcache_arch s.regcache) regnum = true :=
      (getregs_supplies_eq_true_iff _ _).mpr hgen
    rcases hg : E.pt_getregs E.inferior_pid s.inferior with ⟨errno | regs, k1⟩
    · rw [store_get_error E regnum s errno k1 (Or.inr h1) hg]
      simp [requests, Event.request]
    · rcases hs : E.pt_setregs E.inferior_pid
          (E.mips_fbsd_collect_gregs s.regcache regnum regs E.sizeof_register_t) k1
        with ⟨errno | ⟨⟩, k2⟩
      · rw [store_set_error E regnum s regs errno k1 k2 (Or.inr h1) hg hs]
        simp [requests, Event.request]
      · rw [store_general_ok_single E regnum s regs k1 k2 hall h1 hg hs]
        simp [requests, Event.request]
  · by_cases hguard :
        regnum = -1 ∨ getregs_supplies (E.get_regcache_arch s.regcache) regnum = true
    · rcases hg : E.pt_getregs E.inferior_pid s.inferior with ⟨errno | regs, k1⟩
      · rw [store_get_error E regnum s errno k1 hguard hg]
      · rcases hs : E.pt_setregs E.inferior_pid
            (E.mips_fbsd_collect_gregs s.regcache regnum regs E.sizeof_register_t) k1
          with ⟨errno | ⟨⟩, k2⟩
        · rw [store_set_error E regnum s regs errno k1 k2 hguard hg hs]
        · by_cases hall : regnum = -1
          · subst hall
            rw [store_general_ok_all E s regs k1 k2 hg hs]
            exact store_fpregs_block_regcache E (-1) _
          · rw [store_general_ok_single E regnum s regs k1 k2 hall
              (hguard.resolve_left hall) hg hs]
    · rw [not_or] at hguard
      rw [store_skip_general E regnum s hguard.1 hguard.2]
      exact store_fpregs_block_regcache E regnum s

/-- C9: store is a read-modify-write on the bank it selects.

Outcome.  For a single general-bank index (0 <= regnum <= pc), once PT_GETREGS
has returned a block B, the store hands PT_SETREGS, for the same process, the
block collect_gregs (cache, regnum, B, sizeof (register_t)): it returns
normally when that request succeeds and fails with "Couldn't write registers"
when it fails, and in both cases the process is left as that PT_SETREGS left
it, with no floating-point request made.  For a single index outside the
general bank and at or above fp0 the same holds with PT_GETFPREGS,
collect_fpregs, sizeof (f_register_t), PT_SETFPREGS and "Couldn't write
floating point status".  For regnum = -1 the general bank is written in this
way first and then, from the process PT_SETREGS left, the floating-point bank.

Log.  The external calls are logged in this order: the get request, the
collect adapter on the block just read, the set request with the block the
adapter returned; after the general bank only floating-point requests follow.
A store of a single general-bank index adds no PT_SETFPREGS and no
PT_GETFPREGS, and a store never changes the register cache. -/
theorem store_read_modify_write (E : Env K C R F) (regnum : Int) (s : State K C R F) :
    -- outcome, single general-bank index
    (regnum ≠ -1 →
      (0 ≤ regnum ∧ regnum ≤ gdbarch_pc_regnum (E.get_regcache_arch s.regcache)) →
      ∀ regs k1, E.pt_getregs E.inferior_pid s.inferior = (.ok regs, k1) →
        (∀ k2,
          E.pt_setregs E.inferior_pid
            (E.mips_fbsd_collect_gregs s.regcache regnum regs E.sizeof_register_t) k1 =
              (.ok (), k2) →
          mips_fbsd_store_inferior_registers E regnum s =
            (.ok (),
              ⟨k2, s.regcache,
                s.trace ++ [.PT_GETREGS E.inferior_pid,
                  .collect_gregs regnum regs E.sizeof_register_t,
                  .PT_SETREGS E.inferior_pid
                    (E.mips_fbsd_collect_gregs s.regcache regnum regs
                      E.sizeof_register_t)]⟩)) ∧
        (∀ errno k2,
          E.pt_setregs E.inferior_pid
            (E.mips_fbsd_collect_gregs s.regcache regnum regs E.sizeof_register_t) k1 =
              (.error errno, k2) →
          mips_fbsd_store_inferior_registers E regnum s =
            (.error ⟨"Couldn't write registers", errno⟩,
              ⟨k2, s.regcache,
                s.trace ++ [.PT_GETREGS E.inferior_pid,
                  .collect_gregs regnum regs E.sizeof_register_t,
                  .PT_SETREGS E.inferior_pid
                    (E.mips_fbsd_collect_gregs s.regcache regnum regs
                      E.sizeof_register_t)]⟩))) ∧
    -- outcome, single floating-point index
    (regnum ≠ -1 →
      ¬ (0 ≤ regnum ∧ regnum ≤ gdbarch_pc_regnum (E.get_regcache_arch s.regcache)) →
      gdbarch_fp0_regnum (E.get_regcache_arch s.regcache) ≤ regnum →
      ∀ fpregs k1, E.pt_getfpregs E.inferior_pid s.inferior = (.ok fpregs, k1) →
        (∀ k2,
          E.pt_setfpregs E.inferior_pid
            (E.mips_fbsd_collect_fpregs s.regcache regnum fpregs E.sizeof_f_register_t) k1 =
              (.ok (), k2) →
          mips_fbsd_store_inferior_registers E regnum s =
            (.ok (),
              ⟨k2, s.regcache,
                s.trace ++ [.PT_GETFPREGS E.inferior_pid,
                  .collect_fpregs regnum fpregs E.sizeof_f_register_t,
                  .PT_SETFPREGS E.inferior_pid
                    (E.mips_fbsd_collect_fpregs s.regcache regnum fpregs
                      E.sizeof_f_register_t)]⟩)) ∧
        (∀ errno k2,
          E.pt_setfpregs E.inferior_pid
            (E.mips_fbsd_collect_fpregs s.regcache regnum fpregs E.sizeof_f_register_t) k1 =
              (.error errno, k2) →
          mips_fbsd_store_inferior_registers E regnum s =
            (.error ⟨"Couldn't write floating point status", errno⟩,
              ⟨k2, s.regcache,
                s.trace ++ [.PT_GETFPREGS E.inferior_pid,
                  .collect_fpregs regnum fpregs E.sizeof_f_register_t,
                  .PT_SETFPREGS E.inferior_pid
                    (E.mips_fbsd_collect_fpregs s.regcache regnum fpregs
                      E.sizeof_f_register_t)]⟩))) ∧
    -- outcome, all registers
    (∀ regs k1, E.pt_getregs E.inferior_pid s.inferior = (.ok regs, k1) →
      (∀ errno k2,
        E.pt_setregs E.inferior_pid
          (E.mips_fbsd_collect_gregs s.regcache (-1) regs E.sizeof_register_t) k1 =
            (.error errno, k2) →
        mips_fbsd_store_inferior_registers E (-1) s =
          (.error ⟨"Couldn't write registers", errno⟩,
            ⟨k2, s.regcache,
              s.trace ++ [.PT_GETREGS E.inferior_pid,
                .collect_gregs (-1) regs E.sizeof_register_t,
                .PT_SETREGS E.inferior_pid
                  (E.mips_fbsd_collect_gregs s.regcache (-1) regs
                    E.sizeof_register_t)]⟩)) ∧
      (∀ k2 fpregs k3,
        E.pt_setregs E.inferior_pid
          (E.mips_fbsd_collect_gregs s.regcache (-1) regs E.sizeof_register_t) k1 =
            (.ok (), k2) →
        E.pt_getfpregs E.inferior_pid k2 = (.ok fpregs, k3) →
        (∀ k4,
          E.pt_setfpregs E.inferior_pid
            (E.mips_fbsd_collect_fpregs s.regcache (-1) fpregs E.sizeof_f_register_t) k3 =
              (.ok (), k4) →
          mips_fbsd_store_inferior_registers E (-1) s =
            (.ok (),
              ⟨k4, s.regcache,
                s.trace ++ [.PT_GETREGS E.inferior_pid,
                  .collect_gregs (-1) regs E.sizeof_register_t,
                  .PT_SETREGS E.inferior_pid
                    (E.mips_fbsd_collect_gregs s.regcache (-1) regs E.sizeof_register_t),
                  .PT_GETFPREGS E.inferior_pid,
                  .collect_fpregs (-1) fpregs E.sizeof_f_register_t,
                  .PT_SETFPREGS E.inferior_pid
                    (E.mips_fbsd_collect_fpregs s.regcache (-1) fpregs
                      E.sizeof_f_register_t)]⟩)) ∧
        (∀ errno k4,
          E.pt_setfpregs E.inferior_pid
            (E.mips_fbsd_collect_fpregs s.regcache (-1) fpregs E.sizeof_f_register_t) k3 =
              (.error errno, k4) →
          mips_fbsd_store_inferior_registers E (-1) s =
            (.error ⟨"Couldn't write floating point status", errno⟩,
              ⟨k4, s.regcache,
                s.trace ++ [.PT_GETREGS E.inferior_pid,
                  .collect_gregs (-1) regs E.sizeof_register_t,
                  .PT_SETREGS E.inferior_pid
                    (E.mips_fbsd_collect_gregs s.regcache (-1) regs E.sizeof_register_t),
                  .PT_GETFPREGS E.inferior_pid,
                  .collect_fpregs (-1) fpregs E.sizeof_f_register_t,
                  .PT_SETFPREGS E.inferior_pid
                    (E.mips_fbsd_collect_fpregs s.regcache (-1) fpregs
                      E.sizeof_f_register_t)]⟩)))) ∧
    -- log, general path
    ((regnum = -1 ∨
        (0 ≤ regnum ∧ regnum ≤ gdbarch_pc_regnum (E.get_regcache_arch s.regcache))) →
      ∀ regs k1, E.pt_getregs E.inferior_pid s.inferior = (.ok regs, k1) →
        ∃ rest,
          (mips_fbsd_store_inferior_registers E regnum s).2.trace =
            s.trace ++ [.PT_GETREGS E.inferior_pid,
              .collect_gregs regnum regs E.sizeof_register_t,
              .PT_SETREGS E.inferior_pid
                (E.mips_fbsd_collect_gregs s.regcache regnum regs E.sizeof_register_t)]
              ++ rest ∧
          ∀ q ∈ requests rest, q = .PT_GETFPREGS ∨ q = .PT_SETFPREGS) ∧
    -- log, single floating-point index
    (regnum ≠ -1 →
      ¬ (0 ≤ regnum ∧ regnum ≤ gdbarch_pc_regnum (E.get_regcache_arch s.regcache)) →
      gdbarch_fp0_regnum (E.get_regcache_arch s.regcache) ≤ regnum →
      ∀ fpregs k1, E.pt_getfpregs E.inferior_pid s.inferior = (.ok fpregs, k1) →
        (mips_fbsd_store_inferior_registers E regnum s).2.trace =
          s.trace ++ [.PT_GETFPREGS E.inferior_pid,
            .collect_fpregs regnum fpregs E.sizeof_f_register_t,
            .PT_SETFPREGS E.inferior_pid
              (E.mips_fbsd_collect_fpregs s.regcache regnum fpregs
                E.sizeof_f_register_t)]) ∧
    -- log, all registers
    (∀ regs k1 k2 fpregs k3,
      E.pt_getregs E.inferior_pid s.inferior = (.ok regs, k1) →
      E.pt_setregs E.inferior_pid
        (E.mips_fbsd_collect_gregs s.regcache (-1) regs E.sizeof_register_t) k1 =
          (.ok (), k2) →
      E.pt_getfpregs E.inferior_pid k2 = (.ok fpregs, k3) →
      (mips_fbsd_store_inferior_registers E (-1) s).2.trace =
        s.trace ++ [.PT_GETREGS E.inferior_pid,
          .collect_gregs (-1) regs E.sizeof_register_t,
          .PT_SETREGS E.inferior_pid
            (E.mips_fbsd_collect_gregs s.regcache (-1) regs E.sizeof_register_t),
          .PT_GETFPREGS E.inferior_pid,
          .collect_fpregs (-1) fpregs E.sizeof_f_register_t,
          .PT_SETFPREGS E.inferior_pid
            (E.mips_fbsd_collect_fpregs s.regcache (-1) fpregs
              E.sizeof_f_register_t)]) ∧
    -- a single general-bank index makes no floating-point request
    (regnum ≠ -1 →
      (0 ≤ regnum ∧ regnum ≤ gdbarch_pc_regnum (E.get_regcache_arch s.regcache)) →
      (requests (mips_fbsd_store_inferior_registers E regnum s).2.trace).count
          .PT_SETFPREGS = (requests s.trace).count .PT_SETFPREGS ∧
      (requests (mips_fbsd_store_inferior_registers E regnum s).2.trace).count
          .PT_GETFPREGS = (requests s.trace).count .PT_GETFPREGS) ∧
    -- the register cache is read only
    (mips_fbsd_store_inferior_registers E regnum s).2.regcache = s.regcache := by
  refine ⟨?_, ?_, ?_, store_log_shape E regnum s⟩
  · intro hall hgen regs k1 hg
    have h1 : getregs_supplies (E.get_regcache_arch s.regcache) regnum = true :=
      (getregs_supplies_eq_true_iff _ _).mpr hgen
    constructor
    · intro k2 hs
      exact store_general_ok_single E regnum s regs k1 k2 hall h1 hg hs
    · intro errno k2 hs
      exact store_set_error E regnum s regs errno k1 k2 (Or.inr h1) hg hs
  · intro hall hgen hfp fpregs k1 hf
    have h1 : ¬ getregs_supplies (E.get_regcache_arch s.regcache) regnum = true := by
      rw [getregs_supplies_eq_true_iff]
      exact hgen
    have h2 : regnum = -1 ∨
        regnum_ge_fp0 (E.get_regcache_arch s.regcache) regnum = true :=
      Or.inr ((regnum_ge_fp0_eq_true_iff _ _).mpr hfp)
    rw [store_skip_general E regnum s hall h1]
    constructor
    · intro k2 hsf
      exact store_fpregs_block_ok E regnum s fpregs k1 k2 h2 hf hsf
    · intro errno k2 hsf
      exact store_fpregs_block_set_error E regnum s fpregs errno k1 k2 h2 hf hsf
  · intro regs k1 hg
    constructor
    · intro errno k2 hs
      exact store_set_error E (-1) s regs errno k1 k2 (Or.inl rfl) hg hs
    · intro k2 fpregs k3 hs hf
      rw [store_general_ok_all E s regs k1 k2 hg hs]
      constructor
      · intro k4 hsf
        rw [store_fpregs_block_ok E (-1)
          (State.mk k2 s.regcache (s.trace ++ [Event.PT_GETREGS E.inferior_pid,
            Event.collect_gregs (-1) regs E.sizeof_register_t,
            Event.PT_SETREGS E.inferior_pid
              (E.mips_fbsd_collect_gregs s.regcache (-1) regs E.sizeof_register_t)]))
          fpregs k3 k4 (Or.inl rfl) hf hsf]
        simp
      · intro errno k4 hsf
        rw [store_fpregs_block_set_error E (-1)
          (State.mk k2 s.regcache (s.trace ++ [Event.PT_GETREGS E.inferior_pid,
            Event.collect_gregs (-1) regs E.sizeof_register_t,
            Event.PT_SETREGS E.inferior_pid
              (E.mips_fbsd_collect_gregs s.regcache (-1) regs E.sizeof_register_t)]))
          fpregs errno k3 k4 (Or.inl rfl) hf hsf]
        simp [msg_setfpregs]

/-- Witness for C9: stores in the simulated scenario, where the kernel holds
100 + r in general register r and 200 + r in floating-point register r and the
cache holds r in register r.  A store of general register 5 returns normally
and leaves the process with 5 in register 5, 106 in its sibling 6 and 240 in
floating-point register 40.  A store of floating-point register 40 returns
normally and leaves 40 in register 40, 241 in its sibling 41 and 105 in general
register 5.  With every PT_SETFPREGS failing, the store of 40 fails with
"Couldn't write floating point status" and the process keeps 240. -/
theorem store_read_modify_write_witness :
    ((mips_fbsd_store_inferior_registers (simEnv noFail) 5 simState).1 = .ok () ∧
      (mips_fbsd_store_inferior_registers (simEnv noFail) 5 simState).2.inferior.regs 5 = 5 ∧
      (mips_fbsd_store_inferior_registers (simEnv noFail) 5 simState).2.inferior.regs 6 =
        106 ∧
      (mips_fbsd_store_inferior_registers (simEnv noFail) 5 simState).2.inferior.fpregs 40 =
        240) ∧
    ((mips_fbsd_store_inferior_registers (simEnv noFail) 40 simState).1 = .ok () ∧
      (mips_fbsd_store_inferior_registers (simEnv noFail) 40 simState).2.inferior.fpregs 40 =
        40 ∧
      (mips_fbsd_store_inferior_registers (simEnv noFail) 40 simState).2.inferior.fpregs 41 =
        241 ∧
      (mips_fbsd_store_inferior_registers (simEnv noFail) 40 simState).2.inferior.regs 5 =
        105) ∧
    ((mips_fbsd_store_inferior_registers (simEnv (failOn .PT_SETFPREGS)) 40 simState).1 =
        .error ⟨"Couldn't write floating point status", 5⟩ ∧
      (mips_fbsd_store_inferior_registers (simEnv (failOn .PT_SETFPREGS)) 40
        simState).2.inferior.fpregs 40 = 240) := by
  have hgen := ((store_read_modify_write (simEnv noFail) 5 simState).1 (by decide)
    (by decide) simState.inferior.regs simState.inferior rfl).1 _ rfl
  have hfp := ((store_read_modify_write (simEnv noFail) 40 simState).2.1 (by decide)
    (by decide) (by decide) simState.inferior.fpregs simState.inferior rfl).1 _ rfl
  have hfail := ((store_read_modify_write (simEnv (failOn .PT_SETFPREGS)) 40
    simState).2.1 (by decide) (by decide) (by decide) simState.inferior.fpregs
    simState.inferior rfl).2 5 simState.inferior rfl
  refine ⟨?_, ?_, ?_⟩
  · rw [hgen]
    exact ⟨rfl, by decide, by decide, by decide⟩
  · rw [hfp]
    exact ⟨rfl, by decide, by decide, by decide⟩
  · rw [hfail]
    exact ⟨rfl, by decide⟩

/-! ## The error of a store names the failing phase -/

/-- The result of the floating-point block of store, when it runs: which
message it fails with is decided by which of its two requests fails, and it
never fails with a general-bank message. -/
theorem store_fpregs_block_error (E : Env K C R F) (regnum : Int) (s : State K C R F)
    (hguard : regnum = -1 ∨ regnum_ge_fp0 (E.get_regcache_arch s.regcache) regnum = true)
    (errno : Nat) :
    ((store_fpregs_block E regnum s).1 = .error ⟨msg_getfpregs, errno⟩ ↔
      (E.pt_getfpregs E.inferior_pid s.inferior).1 = .error errno) ∧
    ((store_fpregs_block E regnum s).1 = .error ⟨msg_setfpregs, errno⟩ ↔
      ∃ fpregs, (E.pt_getfpregs E.inferior_pid s.inferior).1 = .ok fpregs ∧
        (E.pt_setfpregs E.inferior_pid
          (E.mips_fbsd_collect_fpregs s.regcache regnum fpregs E.sizeof_f_register_t)
          (E.pt_getfpregs E.inferior_pid s.inferior).2).1 = .error errno) ∧
    (store_fpregs_block E regnum s).1 ≠ .error ⟨msg_getregs, errno⟩ ∧
    (store_fpregs_block E regnum s).1 ≠ .error ⟨msg_setregs, errno⟩ := by
  rcases hf : E.pt_getfpregs E.inferior_pid s.inferior with ⟨e | fpregs, k1⟩
  · rw [store_fpregs_block_get_error E regnum s e k1 hguard hf]
    simp [msg_getregs, msg_setregs, msg_getfpregs, msg_setfpregs]
  · rcases hsf : E.pt_setfpregs E.inferior_pid
        (E.mips_fbsd_collect_fpregs s.regcache regnum fpregs E.sizeof_f_register_t) k1
      with ⟨e | ⟨⟩, k2⟩
    · rw [store_fpregs_block_set_error E regnum s fpregs e k1 k2 hguard hf hsf]
      simp [msg_getregs, msg_setregs, msg_getfpregs, msg_setfpregs, hsf]
    · rw [store_fpregs_block_ok E regnum s fpregs k1 k2 hguard hf hsf]
      simp [hsf]

/-- The floating-point block of store never fails with a general-bank
message. -/
theorem store_fpregs_block_not_general_error (E : Env K C R F) (regnum : Int)
    (s : State K C R F) (errno : Nat) :
    (store_fpregs_block E regnum s).1 ≠ .error ⟨msg_getregs, errno⟩ ∧
    (store_fpregs_block E regnum s).1 ≠ .error ⟨msg_setregs, errno⟩ := by
  by_cases hguard :
      regnum = -1 ∨ regnum_ge_fp0 (E.get_regcache_arch s.regcache) regnum = true
  · exact (store_fpregs_block_error E regnum s hguard errno).2.2
  · rw [not_or] at hguard
    rw [store_fpregs_block_skip E regnum s hguard.1 hguard.2]
    simp

/-- C4: the error of a store names the failing phase.  When the general bank
is processed (regnum = -1 or 0 <= regnum <= pc), the store fails with
"Couldn't get registers" exactly when PT_GETREGS fails, and with "Couldn't
write registers" exactly when PT_GETREGS succeeds and the PT_SETREGS that
follows fails.  When the floating-point bank is processed (a single index
outside the general bank and at or above fp0, or -1 once the general bank has
been written), the store fails with "Couldn't get floating point status"
exactly when PT_GETFPREGS fails, and with "Couldn't write floating point
status" exactly when PT_GETFPREGS succeeds and the PT_SETFPREGS that follows
fails.  The error carries the errno of the failing request, and the four
messages are pairwise distinct. -/
theorem store_error_names_failing_phase (E : Env K C R F) (regnum : Int)
    (s : State K C R F) :
    ((regnum = -1 ∨
        (0 ≤ regnum ∧ regnum ≤ gdbarch_pc_regnum (E.get_regcache_arch s.regcache))) →
      ∀ errno,
        ((mips_fbsd_store_inferior_registers E regnum s).1 =
            .error ⟨"Couldn't get registers", errno⟩ ↔
          (E.pt_getregs E.inferior_pid s.inferior).1 = .error errno) ∧
        ((mips_fbsd_store_inferior_registers E regnum s).1 =
            .error ⟨"Couldn't write registers", errno⟩ ↔
          ∃ regs, (E.pt_getregs E.inferior_pid s.inferior).1 = .ok regs ∧
            (E.pt_setregs E.inferior_pid
              (E.mips_fbsd_collect_gregs s.regcache regnum regs E.sizeof_register_t)
              (E.pt_getregs E.inferior_pid s.inferior).2).1 = .error errno)) ∧
    (regnum ≠ -1 →
      ¬ (0 ≤ regnum ∧ regnum ≤ gdbarch_pc_regnum (E.get_regcache_arch s.regcache)) →
      gdbarch_fp0_regnum (E.get_regcache_arch s.regcache) ≤ regnum →
      ∀ errno,
        ((mips_fbsd_store_inferior_registers E regnum s).1 =
            .error ⟨"Couldn't get floating point status", errno⟩ ↔
          (E.pt_getfpregs E.inferior_pid s.inferior).1 = .error errno) ∧
        ((mips_fbsd_store_inferior_registers E regnum s).1 =
            .error ⟨"Couldn't write floating point status", errno⟩ ↔
          ∃ fpregs, (E.pt_getfpregs E.inferior_pid s.inferior).1 = .ok fpregs ∧
            (E.pt_setfpregs E.inferior_pid
              (E.mips_fbsd_collect_fpregs s.regcache regnum fpregs E.sizeof_f_register_t)
              (E.pt_getfpregs E.inferior_pid s.inferior).2).1 = .error errno)) ∧
    (∀ regs k1 k2,
      E.pt_getregs E.inferior_pid s.inferior = (.ok regs, k1) →
      E.pt_setregs E.inferior_pid
        (E.mips_fbsd_collect_gregs s.regcache (-1) regs E.sizeof_register_t) k1 =
          (.ok (), k2) →
      ∀ errno,
        ((mips_fbsd_store_inferior_registers E (-1) s).1 =
            .error ⟨"Couldn't get floating point status", errno⟩ ↔
          (E.pt_getfpregs E.inferior_pid k2).1 = .error errno) ∧
        ((mips_fbsd_store_inferior_registers E (-1) s).1 =
            .error ⟨"Couldn't write floating point status", errno⟩ ↔
          ∃ fpregs, (E.pt_getfpregs E.inferior_pid k2).1 = .ok fpregs ∧
            (E.pt_setfpregs E.inferior_pid
              (E.mips_fbsd_collect_fpregs s.regcache (-1) fpregs E.sizeof_f_register_t)
              (E.pt_getfpregs E.inferior_pid k2).2).1 = .error errno)) ∧
    ["Couldn't get registers", "Couldn't write registers",
      "Couldn't get floating point status", "Couldn't write floating point status"].Nodup := by
  refine ⟨?_, ?_, ?_, by decide⟩
  · intro hguard errno
    have hguard1 : regnum = -1 ∨
        getregs_supplies (E.get_regcache_arch s.regcache) regnum = true :=
      hguard.imp id (getregs_supplies_eq_true_iff _ _).mpr
    rcases hg : E.pt_getregs E.inferior_pid s.inferior with ⟨e | regs, k1⟩
    · rw [store_get_error E regnum s e k1 hguard1 hg]
      simp [msg_getregs]
    · rcases hs : E.pt_setregs E.inferior_pid
          (E.mips_fbsd_collect_gregs s.regcache regnum regs E.sizeof_register_t) k1
        with ⟨e | ⟨⟩, k2⟩
      · rw [store_set_error E regnum s regs e k1 k2 hguard1 hg hs]
        simp [msg_setregs, hs]
      · by_cases hall : regnum = -1
        · subst hall
          rw [store_general_ok_all E s regs k1 k2 hg hs]
          have hne := store_fpregs_block_not_general_error E (-1)
            (State.mk k2 s.regcache (s.trace ++ [Event.PT_GETREGS E.inferior_pid,
              Event.collect_gregs (-1) regs E.sizeof_register_t,
              Event.PT_SETREGS E.inferior_pid
                (E.mips_fbsd_collect_gregs s.regcache (-1) regs E.sizeof_register_t)]))
            errno
          simp only [msg_getregs, msg_setregs] at hne
          simp [hne.1, hne.2, hs]
        · rw [store_general_ok_single E regnum s regs k1 k2 hall
            (hguard1.resolve_left hall) hg hs]
          simp [hs]
  · intro hall hgen hfp errno
    have h1 : ¬ getregs_supplies (E.get_regcache_arch s.regcache) regnum = true := by
      rw [getregs_supplies_eq_true_iff]
      exact hgen
    have h2 : regnum = -1 ∨
        regnum_ge_fp0 (E.get_regcache_arch s.regcache) regnum = true :=
      Or.inr ((regnum_ge_fp0_eq_true_iff _ _).mpr hfp)
    rw [store_skip_general E regnum s hall h1]
    have h := store_fpregs_block_error E regnum s h2 errno
    exact ⟨h.1, h.2.1⟩
  · intro regs k1 k2 hg hs errno
    rw [store_general_ok_all E s regs k1 k2 hg hs]
    have h := store_fpregs_block_error E (-1)
      (State.mk k2 s.regcache (s.trace ++ [Event.PT_GETREGS E.inferior_pid,
        Event.collect_gregs (-1) regs E.sizeof_register_t,
        Event.PT_SETREGS E.inferior_pid
          (E.mips_fbsd_collect_gregs s.regcache (-1) regs E.sizeof_register_t)]))
      (Or.inl rfl) errno
    exact ⟨h.1, h.2.1⟩

/-- Witness for C4: stores of general register 5 in the simulated scenario.
With every PT_GETREGS failing the store reports the read; with every PT_SETREGS
failing it reports the write-back. -/
theorem store_error_names_failing_phase_witness :
    (mips_fbsd_store_inferior_registers (simEnv (failOn .PT_GETREGS)) 5 simState).1 =
      .error ⟨"Couldn't get registers", 5⟩ ∧
    (mips_fbsd_store_inferior_registers (simEnv (failOn .PT_SETREGS)) 5 simState).1 =
      .error ⟨"Couldn't write registers", 5⟩ :=
  ⟨((store_error_names_failing_phase (simEnv (failOn .PT_GETREGS)) 5 simState).1
      (Or.inr (by decide)) 5).1.mpr rfl,
    ((store_error_names_failing_phase (simEnv (failOn .PT_SETREGS)) 5 simState).1
      (Or.inr (by decide)) 5).2.mpr ⟨simState.inferior.regs, rfl, rfl⟩⟩

/-! ## Store then fetch of a general-purpose register -/

/-- Fetch of a single general-bank index when PT_GETREGS succeeds. -/
theorem fetch_general_ok_single (E : Env K C R F) (regnum : Int) (s : State K C R F)
    (regs : R) (k1 : K) (hall : regnum ≠ -1)
    (hgen : getregs_supplies (E.get_regcache_arch s.regcache) regnum = true)
    (hg : E.pt_getregs E.inferior_pid s.inferior = (.ok regs, k1)) :
    mips_fbsd_fetch_inferior_registers E regnum s =
      (.ok (),
        ⟨k1, E.mips_fbsd_supply_gregs s.regcache regnum regs E.sizeof_register_t,
          s.trace ++ [.PT_GETREGS E.inferior_pid,
            .supply_gregs regnum regs E.sizeof_register_t]⟩) := by
  simp [mips_fbsd_fetch_inferior_registers, hall, hgen, hg]

/-- C5: store then fetch of a general-purpose register.  Assume a kernel whose
general block is observed by `kregs`: PT_GETREGS returns it and leaves it in
place, a successful PT_SETREGS replaces it by the block handed over.  Assume
adapters that act on slots: collect_gregs for register i sets slot i of the
block to the cache's value and keeps the other slots, supply_gregs for a
register sets the cache's slot to the block's, and supply_gregs keeps the
architecture of the cache.  Then for general-purpose registers i and j, j other
than i: after a successful store of i from a cache holding v in slot i, a fetch
of i (into that cache or any other cache of the same architecture) succeeds and
leaves v in slot i, and a fetch of j, after it or in its place, succeeds and
leaves in slot j the value the kernel held for j before the store. -/
theorem store_then_fetch_general {V : Type} (E : Env K C R F)
    (cache_get : C → Int → V) (reg_get : R → Int → V) (kregs : K → R)
    (s : State K C R F) (i j : Int)
    (hkget : ∀ k, ∃ k1,
      E.pt_getregs E.inferior_pid k = (.ok (kregs k), k1) ∧ kregs k1 = kregs k)
    (hkset : ∀ blk k k2, E.pt_setregs E.inferior_pid blk k = (.ok (), k2) → kregs k2 = blk)
    (hcollect_self : ∀ c blk,
      reg_get (E.mips_fbsd_collect_gregs c i blk E.sizeof_register_t) i = cache_get c i)
    (hcollect_other : ∀ c blk r, r ≠ i →
      reg_get (E.mips_fbsd_collect_gregs c i blk E.sizeof_register_t) r = reg_get blk r)
    (hsupply : ∀ c blk r, r = i ∨ r = j →
      cache_get (E.mips_fbsd_supply_gregs c r blk E.sizeof_register_t) r = reg_get blk r)
    (harch : ∀ c blk r,
      E.get_regcache_arch (E.mips_fbsd_supply_gregs c r blk E.sizeof_register_t) =
        E.get_regcache_arch c)
    (hi : 0 ≤ i ∧ i ≤ gdbarch_pc_regnum (E.get_regcache_arch s.regcache))
    (hj : 0 ≤ j ∧ j ≤ gdbarch_pc_regnum (E.get_regcache_arch s.regcache))
    (hji : j ≠ i)
    (s1 : State K C R F)
    (hstore : mips_fbsd_store_inferior_registers E i s = (.ok (), s1))
    (c : C) (hc : E.get_regcache_arch c = E.get_regcache_arch s.regcache) :
    (∃ s2, mips_fbsd_fetch_inferior_registers E i ⟨s1.inferior, c, s1.trace⟩ = (.ok (), s2) ∧
      cache_get s2.regcache i = cache_get s.regcache i ∧
      ∃ s3, mips_fbsd_fetch_inferior_registers E j s2 = (.ok (), s3) ∧
        cache_get s3.regcache j = reg_get (kregs s.inferior) j) ∧
    (∃ s3, mips_fbsd_fetch_inferior_registers E j ⟨s1.inferior, c, s1.trace⟩ = (.ok (), s3) ∧
      cache_get s3.regcache j = reg_get (kregs s.inferior) j) := by
  have hi0 : i ≠ -1 := by omega
  have hj0 : j ≠ -1 := by omega
  have hgi : getregs_supplies (E.get_regcache_arch s.regcache) i = true :=
    (getregs_supplies_eq_true_iff _ _).mpr hi
  have hgj : getregs_supplies (E.get_regcache_arch s.regcache) j = true :=
    (getregs_supplies_eq_true_iff _ _).mpr hj
  -- the store: its read returns the kernel's block, its write-back succeeded
  obtain ⟨k1, hg, -⟩ := hkget s.inferior
  have hk : kregs s1.inferior =
      E.mips_fbsd_collect_gregs s.regcache i (kregs s.inferior) E.sizeof_register_t := by
    rcases hs : E.pt_setregs E.inferior_pid
        (E.mips_fbsd_collect_gregs s.regcache i (kregs s.inferior) E.sizeof_register_t) k1
      with ⟨e | ⟨⟩, k2⟩
    · rw [store_set_error E i s _ e k1 k2 (Or.inr hgi) hg hs] at hstore
      simp at hstore
    · rw [store_general_ok_single E i s _ k1 k2 hi0 hgi hg hs] at hstore
      have h2 : s1.inferior = k2 := by
        have := congrArg (fun o => o.2.inferior) hstore
        exact this.symm
      rw [h2]
      exact hkset _ _ _ hs
  -- the fetch of j right after the store
  have hdirect : ∃ s3,
      mips_fbsd_fetch_inferior_registers E j ⟨s1.inferior, c, s1.trace⟩ = (.ok (), s3) ∧
      cache_get s3.regcache j = reg_get (kregs s.inferior) j := by
    obtain ⟨k3, hg3, -⟩ := hkget s1.inferior
    refine ⟨_, fetch_general_ok_single E j ⟨s1.inferior, c, s1.trace⟩ _ k3 hj0
      (by rw [hc]; exact hgj) hg3, ?_⟩
    show cache_get (E.mips_fbsd_supply_gregs c j (kregs s1.inferior) E.sizeof_register_t) j
      = reg_get (kregs s.inferior) j
    rw [hsupply _ _ _ (Or.inr rfl), hk, hcollect_other _ _ _ hji]
  refine ⟨?_, hdirect⟩
  -- the fetch of i, then of j
  obtain ⟨k2, hg2, hk2⟩ := hkget s1.inferior
  refine ⟨_, fetch_general_ok_single E i ⟨s1.inferior, c, s1.trace⟩ _ k2 hi0
    (by rw [hc]; exact hgi) hg2, ?_, ?_⟩
  · show cache_get (E.mips_fbsd_supply_gregs c i (kregs s1.inferior) E.sizeof_register_t) i
      = cache_get s.regcache i
    rw [hsupply _ _ _ (Or.inl rfl), hk, hcollect_self]
  · obtain ⟨k3, hg3, -⟩ := hkget k2
    refine ⟨_, fetch_general_ok_single E j _ _ k3 hj0 ?_ hg3, ?_⟩
    · show getregs_supplies (E.get_regcache_arch
        (E.mips_fbsd_supply_gregs c i (kregs s1.inferior) E.sizeof_register_t)) j = true
      rw [harch, hc]
      exact hgj
    · show cache_get (E.mips_fbsd_supply_gregs
        (E.mips_fbsd_supply_gregs c i (kregs s1.inferior) E.sizeof_register_t) j
          (kregs k2) E.sizeof_register_t) j = reg_get (kregs s.inferior) j
      rw [hsupply _ _ _ (Or.inr rfl), hk2, hk, hcollect_other _ _ _ hji]

/-- Witness for C5: in the simulated scenario with no failing request, general
register 5 is stored from the start cache (slot 5 holds 5) while the kernel
holds 105 and 106 in registers 5 and 6; fetching 5 and then 6 into an all-zero
cache yields 5 and 106. -/
theorem store_then_fetch_general_witness :
    (∃ s2, mips_fbsd_fetch_inferior_registers (simEnv noFail) 5
        ⟨(mips_fbsd_store_inferior_registers (simEnv noFail) 5 simState).2.inferior,
          fun _ => 0,
          (mips_fbsd_store_inferior_registers (simEnv noFail) 5 simState).2.trace⟩ =
          (.ok (), s2) ∧
      s2.regcache 5 = 5 ∧
      ∃ s3, mips_fbsd_fetch_inferior_registers (simEnv noFail) 6 s2 = (.ok (), s3) ∧
        s3.regcache 6 = 106) ∧
    (∃ s3, mips_fbsd_fetch_inferior_registers (simEnv noFail) 6
        ⟨(mips_fbsd_store_inferior_registers (simEnv noFail) 5 simState).2.inferior,
          fun _ => 0,
          (mips_fbsd_store_inferior_registers (simEnv noFail) 5 simState).2.trace⟩ =
          (.ok (), s3) ∧
      s3.regcache 6 = 106) :=
  store_then_fetch_general (simEnv noFail) (fun c r => c r) (fun blk r => blk r)
    (fun k => k.regs) simState 5 6
    (fun k => ⟨k, rfl, rfl⟩)
    (by intro blk k k2 h; cases h; rfl)
    (by intro c blk; simp [simEnv])
    (by intro c blk r hr; simp [simEnv, hr])
    (by intro c blk r hr; rcases hr with rfl | rfl <;> simp [simEnv])
    (by intro c blk r; rfl)
    (by decide) (by decide) (by decide)
    (mips_fbsd_store_inferior_registers (simEnv noFail) 5 simState).2 rfl
    (fun _ => 0) rfl

end MipsFbsdNat
